import Mathlib

set_option maxRecDepth 16384

/-!
Shallow embedding of the ReactSSR server-side component rendering core:
the class resolver (class-variance-authority tables merged through
clsx/tailwind-merge), the attribute serializer, the component factories
(avatar, input, card family, KPI, activity item, user-info fields) and the
Handlebars helper wrappers, translated from the TypeScript sources.
-/

namespace ReactSSR

/-- A JavaScript runtime value as it flows through the props objects of this
codebase: strings, numbers (used integrally here), booleans, `null`,
`undefined`, and plain objects (used for the user record).  Arrays and
functions do not occur in the props data of this repository. -/
inductive JsVal where
  | str (s : String)
  | num (n : Int)
  | bool (b : Bool)
  | null
  | undefined
  | obj (fields : List (String × String))
deriving DecidableEq, Repr

/-- JavaScript truthiness: `""`, `0`, `false`, `null`, `undefined` are falsy;
every other value occurring here (non-empty strings, non-zero numbers,
objects) is truthy. -/
def truthy : JsVal → Bool
  | .str s => s ≠ ""
  | .num n => n ≠ 0
  | .bool b => b
  | .null => false
  | .undefined => false
  | .obj _ => true

/-- JavaScript `String(value)` coercion for the values above (template
literal interpolation). -/
def jsToString : JsVal → String
  | .str s => s
  | .num n => toString n
  | .bool b => if b then "true" else "false"
  | .null => "null"
  | .undefined => "undefined"
  | .obj _ => "[object Object]"

/-- A props object: an insertion-ordered mapping from string keys to values,
as produced by a Handlebars call site's named arguments. -/
abbrev Props := List (String × JsVal)

/-- First-match association-list lookup over string keys. -/
def lookupStr {α : Type} : List (String × α) → String → Option α
  | [], _ => none
  | (k, v) :: rest, key => if k = key then some v else lookupStr rest key

/-- Property read `props[k]`: `undefined` when the key is absent, as in
JavaScript. -/
def getProp (props : Props) (k : String) : JsVal :=
  match lookupStr props k with
  | some v => v
  | none => .undefined

/-- Property write `props[k] = v`: replaces the value in place when the key
exists, appends otherwise (JavaScript object insertion-order semantics). -/
def setProp (props : Props) (k : String) (v : JsVal) : Props :=
  if props.any (fun kv => kv.1 = k) then
    props.map (fun kv => if kv.1 = k then (k, v) else kv)
  else
    props ++ [(k, v)]

/-- Rest destructuring `const { a, b, ...rest } = props`: the remaining
entries, in order, whose keys are not among the destructured ones. -/
def stripKeys (props : Props) (removed : List String) : Props :=
  props.filter (fun kv => ¬ removed.contains kv.1)

/-- Object-spread update `{...m, k: v}`: overwrites in place if present,
appends otherwise. -/
def jsSpread (m : Props) (k : String) (v : JsVal) : Props :=
  setProp m k v

/-!
## Attribute serializer (`src/ui/utils/utils.ts`, `createAttributesStringified`)

```ts
return Object.entries(attributes)
  .filter(([, value]) => value !== undefined && value !== null)
  .map(([key, value]) => {
    if (typeof value === 'boolean') { return value ? key : ''; }
    return `${key}="${String(value)}"`;
  })
  .filter(Boolean)
  .join(' ');
```
-/

/-- The serializer pipeline from `createAttributesStringified`, entry by
entry, before the final join. -/
def attrEntryStrings (attributes : Props) : List String :=
  ((attributes.filter
      (fun kv => kv.2 != JsVal.undefined && kv.2 != JsVal.null)).map
    (fun kv =>
      match kv.2 with
      | .bool b => if b then kv.1 else ""
      | v => kv.1 ++ "=\x22" ++ jsToString v ++ "\x22")).filter
    (fun s => s ≠ "")

/-- `createAttributesStringified` from `src/ui/utils/utils.ts`. -/
def createAttributesStringified (attributes : Props) : String :=
  String.intercalate " " (attrEntryStrings attributes)

/-!
## Class resolution: clsx, tailwind-merge, class-variance-authority

The factories compose classes with `cn(...inputs) = twMerge(clsx(inputs))`
(`src/ui/utils/utils.ts`) over variant tables declared with `cva`.
`clsx`, `twMerge` and `cva` are library dependencies; they are embedded
here following their implementations as used by this codebase: `clsx`
joins its truthy string arguments with single spaces; `twMerge` drops a
utility class when a later class in the list conflicts on the same CSS
property group; `cva` resolves each axis from the props with fallback to
the declared default when the prop is absent.
-/

/-- A `clsx` argument rendered to its contributed text: strings contribute
themselves, numbers their decimal form, and booleans, `null` and
`undefined` contribute nothing (object/array inputs do not occur in this
codebase's `cn`/`cva` calls). -/
def clsxArg : JsVal → String
  | .str s => s
  | .num n => toString n
  | _ => ""

/-- `clsx` over already-rendered pieces: join the non-empty ones with a
single space. -/
def clsxJoin (pieces : List String) : String :=
  String.intercalate " " (pieces.filter (fun s => s ≠ ""))

/-- tailwind-merge conflict groups for the utility classes that occur in
this repository's variant tables and overrides.  Classes not listed belong
to no group tracked here and are never dropped. -/
def twGroup (c : String) : Option String :=
  lookupStr
    [("p-2", "p"), ("p-4", "p"), ("p-6", "p"), ("p-8", "p"),
     ("py-4", "py"), ("py-6", "py"), ("py-8", "py"),
     ("px-2", "px"), ("px-2.5", "px"), ("px-3", "px"), ("px-4", "px"),
     ("px-6", "px"),
     ("bg-muted", "bg-color"), ("bg-primary", "bg-color"),
     ("bg-secondary", "bg-color"), ("bg-accent", "bg-color"),
     ("bg-destructive", "bg-color"), ("bg-card", "bg-color"),
     ("bg-white", "bg-color"), ("bg-gray-50", "bg-color"),
     ("bg-gray-100", "bg-color"), ("bg-transparent", "bg-color"),
     ("border", "border-w"), ("border-2", "border-w"),
     ("border-gray-100", "border-color"), ("border-gray-200", "border-color"),
     ("border-gray-300", "border-color"), ("border-transparent", "border-color"),
     ("border-red-500", "border-color"), ("border-green-500", "border-color"),
     ("size-8", "size"), ("size-10", "size"), ("size-12", "size"),
     ("size-16", "size"),
     ("text-xs", "font-size"), ("text-sm", "font-size"),
     ("text-base", "font-size"), ("text-lg", "font-size"),
     ("text-2xl", "font-size"),
     ("h-8", "h"), ("h-9", "h"), ("h-10", "h")] c

/-- Whether a later class `d` removes an earlier class `c`: same conflict
group, or an axis-specific padding (`px-*`/`py-*`) removed by a later
all-sides padding (`p-*`). -/
def conflictsWith (c d : String) : Bool :=
  match twGroup c, twGroup d with
  | some g, some g2 => g = g2 || ((g = "px" || g = "py") && g2 = "p")
  | _, _ => false

/-- tailwind-merge over a word list: keep a class only when no later class
conflicts with it (so the last of several conflicting classes wins),
preserving the order of the kept classes. -/
def twMergeList : List String → List String
  | [] => []
  | c :: rest =>
    if rest.any (fun d => conflictsWith c d) then twMergeList rest
    else c :: twMergeList rest

/-- The classes of a prefix `xs` that survive `twMergeList (xs ++ ys)`:
those with no conflicting later class in the rest of `xs` or in `ys`.
Used to state how the merge decomposes around the caller override. -/
def keptBefore : List String → List String → List String
  | [], _ => []
  | c :: xs, ys =>
    if (xs ++ ys).any (fun d => conflictsWith c d) then keptBefore xs ys
    else c :: keptBefore xs ys

/-- Splitting a character list at every character satisfying `p`
(JavaScript `String.prototype.split` semantics: the split of the empty
text is one empty piece, and consecutive separators yield empty pieces). -/
def splitCharsAux (p : Char → Bool) : List Char → List Char → List (List Char)
  | [], acc => [acc.reverse]
  | c :: rest, acc =>
    if p c then acc.reverse :: splitCharsAux p rest []
    else splitCharsAux p rest (c :: acc)

/-- The whitespace-separated words of a class string. -/
def classWords (s : String) : List String :=
  ((splitCharsAux (fun ch => ch = ' ') s.data []).map String.mk).filter
    (fun w => w ≠ "")

/-- `twMerge` on a class string: split into words, resolve conflicts, join
back with single spaces. -/
def twMergeStr (s : String) : String :=
  String.intercalate " " (twMergeList (classWords s))

/-- `cn` from `src/ui/utils/utils.ts`: `twMerge(clsx(inputs))`. -/
def cn (inputs : List JsVal) : String :=
  twMergeStr (clsxJoin (inputs.map clsxArg))

/-- One `cva` variant axis: its name, the value-to-fragment table, and the
declared default value. -/
structure VariantAxis where
  name : String
  values : List (String × String)
  dflt : JsVal

/-- `falsyToString` from class-variance-authority: booleans and the number
zero are rendered to their (truthy) string form so they can index the
value table; other values pass through. -/
def falsyToString : JsVal → JsVal
  | .bool b => .str (if b then "true" else "false")
  | .num 0 => .str "0"
  | v => v

/-- Resolving one axis, following `cva`: an explicitly `null` prop yields no
fragment; otherwise the key is the prop if truthy after `falsyToString`,
else the declared default, and the fragment is the table entry for that
key (none when the key is unknown). -/
def cvaResolveAxis (props : Props) (ax : VariantAxis) : Option String :=
  let variantProp := getProp props ax.name
  if variantProp = JsVal.null then none
  else
    let f := falsyToString variantProp
    let key := if truthy f then f else falsyToString ax.dflt
    lookupStr ax.values (jsToString key)

/-- A `cva(base, {variants, defaultVariants})` component function applied to
props: `cx(base, axis fragments..., props.class, props.className)`. -/
def cvaApply (base : String) (axes : List VariantAxis) (props : Props) : String :=
  clsxJoin
    ((base :: (axes.map (cvaResolveAxis props)).map (fun o => o.getD "")) ++
      [clsxArg (getProp props "class"), clsxArg (getProp props "className")])

/-!
## Variant tables (translated from the component sources)
-/

/-- `avatarVariants` from `src/ui/components/avatar.ts`. -/
def avatarVariants (props : Props) : String :=
  cvaApply "relative flex shrink-0 overflow-hidden rounded-full"
    [⟨"variant",
      [("default", "bg-muted"),
       ("primary", "bg-primary text-primary-foreground"),
       ("secondary", "bg-secondary text-secondary-foreground"),
       ("accent", "bg-accent text-accent-foreground"),
       ("destructive", "bg-destructive text-destructive-foreground")],
      .str "default"⟩,
     ⟨"size",
      [("sm", "size-8 text-xs"), ("md", "size-10 text-sm"),
       ("lg", "size-12 text-base"), ("xl", "size-16 text-lg")],
      .str "md"⟩]
    props

/-- The base class string of `inputVariants` (`components/input.ts`). -/
def inputBase : String :=
  "w-full appearance-none bg-white text-foreground placeholder:text-muted-foreground border border-gray-300 rounded-md ring-offset-white transition-colors focus-visible:outline-none focus-visible:ring-2 focus-visible:ring-primary focus-visible:ring-offset-2 disabled:cursor-not-allowed disabled:opacity-50"

/-- `inputVariants` from the input component source. -/
def inputVariants (props : Props) : String :=
  cvaApply inputBase
    [⟨"variant",
      [("default", ""), ("subtle", "bg-gray-100"),
       ("ghost", "bg-transparent border-transparent focus-visible:border-gray-300")],
      .str "default"⟩,
     ⟨"size",
      [("lg", "h-10 px-4 text-sm"), ("md", "h-9 px-3 text-sm"),
       ("sm", "h-8 px-2.5 text-xs")],
      .str "md"⟩,
     ⟨"state",
      [("normal", ""), ("error", "border-red-500 focus-visible:ring-red-500"),
       ("success", "border-green-500 focus-visible:ring-green-500")],
      .str "normal"⟩]
    props

/-- `kpiVariants` from `src/ui/components/user-info-fields.ts` (KPI part). -/
def kpiVariants (props : Props) : String :=
  cvaApply "rounded-lg border bg-card text-card-foreground shadow-sm transition-all hover:shadow-md"
    [⟨"variant",
      [("default", "border-gray-200"),
       ("gradient", "bg-gradient-to-br from-white to-gray-50 border-gray-200"),
       ("outlined", "border-2 border-gray-300")],
      .str "default"⟩,
     ⟨"size",
      [("default", "p-6"), ("sm", "p-4"), ("lg", "p-8")],
      .str "default"⟩]
    props

/-- `cardVariants` from the card component source. -/
def cardVariants (props : Props) : String :=
  cvaApply "bg-card text-card-foreground flex flex-col gap-6 rounded-xl border shadow-sm"
    [⟨"variant",
      [("default", "border-gray-200"),
       ("gradient", "bg-gradient-to-br from-white dark:from-gray-900 to-gray-50 dark:to-gray-800 border-gray-200"),
       ("outlined", "border-2 border-gray-300")],
      .str "default"⟩,
     ⟨"padding",
      [("none", ""), ("sm", "py-4"), ("md", "py-6"), ("lg", "py-8")],
      .str "md"⟩]
    props

/-- `activityItemVariants` from the activity-item component source. -/
def activityItemVariants (props : Props) : String :=
  cvaApply "flex items-center justify-between py-4 hover:bg-gray-50 px-4 rounded-lg transition-colors"
    [⟨"hasBorder",
      [("true", "border-b border-gray-100"), ("false", "")],
      .bool true⟩]
    props

/-!
## Avatar factory (`src/ui/components/avatar.ts`)
-/

/-- `getAvatarAttributes`: rest destructuring away the avatar's declared
props `variant, size, className, name, src, alt`. -/
def getAvatarAttributes (props : Props) : Props :=
  stripKeys props ["variant", "size", "className", "name", "src", "alt"]

/-- JavaScript `a || b`. -/
def jsOr (a b : JsVal) : JsVal :=
  if truthy a then a else b

/-- `str.charAt(0)` as used by `getInitials`: the first character as a
one-character string, or the empty string. -/
def charAt0 (s : String) : String :=
  match s.data with
  | [] => ""
  | c :: _ => String.mk [c]

/-- `str.trim()`: strip leading and trailing whitespace. -/
def jsTrim (s : String) : String :=
  String.mk
    (((s.data.dropWhile Char.isWhitespace).reverse.dropWhile
        Char.isWhitespace).reverse)

/-- `str.toUpperCase()` for the ASCII initials produced here. -/
def jsToUpperCase (s : String) : String :=
  String.mk (s.data.map Char.toUpper)

/-- `split(/\s+/)` applied to an already trimmed string: splitting the
empty string yields `[""]` (as in JavaScript); otherwise the non-empty
whitespace-separated tokens. -/
def jsSplitWs (s : String) : List String :=
  if s = "" then [""]
  else ((splitCharsAux Char.isWhitespace s.data []).map String.mk).filter
    (fun w => w ≠ "")

/-- `getInitials` from `avatar.ts`. -/
def getInitials (name : String) : String :=
  if name = "" then ""
  else
    let parts := jsSplitWs (jsTrim name)
    if parts.length = 1 then jsToUpperCase (charAt0 (parts.headD ""))
    else jsToUpperCase (charAt0 (parts.headD "") ++ charAt0 (parts.getLastD ""))

/-- `createAvatar` from `avatar.ts`. -/
def createAvatar (props : Props) : String :=
  let classes := cn
    [.str (avatarVariants
        [("variant", getProp props "variant"), ("size", getProp props "size")]),
     getProp props "className"]
  let attributes := getAvatarAttributes
    (stripKeys props ["variant", "size", "className", "name", "src", "alt"])
  let attributesStringified := createAttributesStringified attributes
  let name := getProp props "name"
  let initials := if truthy name then getInitials (jsToString name) else ""
  let displayAlt := jsOr (getProp props "alt") (jsOr name (.str "Avatar"))
  if truthy (getProp props "src") then
    "<img data-slot=\"avatar\" class=\"" ++ classes ++ "\" src=\"" ++
      jsToString (getProp props "src") ++ "\" alt=\"" ++ jsToString displayAlt ++
      "\" " ++ attributesStringified ++ " />"
  else
    "<div data-slot=\"avatar\" class=\"" ++ classes ++
      " flex items-center justify-center font-semibold\" " ++
      attributesStringified ++ ">" ++ initials ++ "</div>"

/-!
## Input factory (input component source)
-/

/-- `getInputAttributes`: rest destructuring away the input's variant and
handler props, then object spreads adding lower-cased event handler
attributes and bare boolean attributes for the truthy flags. -/
def getInputAttributes (props : Props) : Props :=
  let attributes := stripKeys props
    ["variant", "size", "state", "className",
     "onInput", "onChange", "onBlur", "onFocus"]
  let m := attributes
  let m := if truthy (getProp props "onInput") then
      jsSpread m "oninput" (getProp props "onInput") else m
  let m := if truthy (getProp props "onChange") then
      jsSpread m "onchange" (getProp props "onChange") else m
  let m := if truthy (getProp props "onBlur") then
      jsSpread m "onblur" (getProp props "onBlur") else m
  let m := if truthy (getProp props "onFocus") then
      jsSpread m "onfocus" (getProp props "onFocus") else m
  let m := if truthy (getProp props "disabled") then
      jsSpread m "disabled" (.bool true) else m
  let m := if truthy (getProp props "readOnly") then
      jsSpread m "readonly" (.bool true) else m
  let m := if truthy (getProp props "required") then
      jsSpread m "required" (.bool true) else m
  let m := if truthy (getProp props "autoFocus") then
      jsSpread m "autofocus" (.bool true) else m
  m

/-- `createInput` from the input component source. -/
def createInput (props : Props) : String :=
  let classes := cn
    [.str (inputVariants
        [("variant", getProp props "variant"), ("size", getProp props "size"),
         ("state", getProp props "state")]),
     getProp props "className"]
  let attributes := getInputAttributes
    (stripKeys props ["variant", "size", "state", "className"])
  let attributesStringified := createAttributesStringified attributes
  "<input class=\"" ++ classes ++ "\" " ++ attributesStringified ++ " />"

/-!
## Card family factories (card component source)
-/

/-- `children ?? ''` followed by template interpolation. -/
def childrenContent (ch : JsVal) : String :=
  if ch = JsVal.null ∨ ch = JsVal.undefined then "" else jsToString ch

/-- `getCardAttributes`. -/
def getCardAttributes (props : Props) : Props :=
  stripKeys props ["variant", "padding", "className", "children"]

/-- `createCard`. -/
def createCard (props : Props) : String :=
  let classes := cn
    [.str (cardVariants
        [("variant", getProp props "variant"),
         ("padding", getProp props "padding")]),
     getProp props "className"]
  let attributes := getCardAttributes
    (stripKeys props ["variant", "padding", "className", "children"])
  let attributesStringified := createAttributesStringified attributes
  let content := childrenContent (getProp props "children")
  "<div data-slot=\"card\" class=\"" ++ classes ++ "\" " ++
    attributesStringified ++ ">" ++ content ++ "</div>"

/-- Shared shape of the six card sub-region factories: strip
`className`/`children`, resolve `cn(baseClasses, className)`, serialize the
rest, and wrap the children in a `data-slot` div. -/
def createCardRegion (slot baseClasses : String) (props : Props) : String :=
  let classes := cn [.str baseClasses, getProp props "className"]
  let attributes := stripKeys props ["className", "children"]
  let attributesStringified := createAttributesStringified attributes
  let content := childrenContent (getProp props "children")
  "<div data-slot=\"" ++ slot ++ "\" class=\"" ++ classes ++ "\" " ++
    attributesStringified ++ ">" ++ content ++ "</div>"

/-- `createCardHeader`. -/
def createCardHeader (props : Props) : String :=
  createCardRegion "card-header"
    "@container/card-header grid auto-rows-min grid-rows-[auto_auto] items-start gap-2 px-6 has-data-[slot=card-action]:grid-cols-[1fr_auto] [.border-b]:pb-6"
    props

/-- `createCardTitle`. -/
def createCardTitle (props : Props) : String :=
  createCardRegion "card-title" "leading-none font-semibold" props

/-- `createCardDescription`. -/
def createCardDescription (props : Props) : String :=
  createCardRegion "card-description" "text-muted-foreground text-sm" props

/-- `createCardAction`. -/
def createCardAction (props : Props) : String :=
  createCardRegion "card-action"
    "col-start-2 row-span-2 row-start-1 self-start justify-self-end" props

/-- `createCardContent`. -/
def createCardContent (props : Props) : String :=
  createCardRegion "card-content" "px-6" props

/-- `createCardFooter`. -/
def createCardFooter (props : Props) : String :=
  createCardRegion "card-footer" "flex items-center px-6 [.border-t]:pt-6"
    props

/-!
## Activity item factory (activity-item component source)
-/

/-- `getActivityItemClasses`: `clsx(activityItemVariants({hasBorder}),
className)` — note plain `clsx`, not `cn`, in this component. -/
def getActivityItemClasses (props : Props) : String :=
  clsxJoin
    [activityItemVariants [("hasBorder", getProp props "hasBorder")],
     clsxArg (getProp props "className")]

/-- The `statusColorClasses` lookup table local to `createActivityItem`. -/
def statusColorClasses : List (String × String) :=
  [("blue", "bg-blue-600"), ("green", "bg-green-600"),
   ("yellow", "bg-yellow-600"), ("red", "bg-red-600"),
   ("purple", "bg-purple-600")]

/-- The status-dot fragment selection in `createActivityItem`:
`props.statusColor ? statusColorClasses[props.statusColor] :
statusColorClasses.blue`.  An absent/falsy value selects blue; a truthy
value indexes the table, which yields the JavaScript value `undefined`
when the key is unknown. -/
def activityStatusColor (statusColorProp : JsVal) : JsVal :=
  if truthy statusColorProp then
    match lookupStr statusColorClasses (jsToString statusColorProp) with
    | some s => .str s
    | none => .undefined
  else .str "bg-blue-600"

/-- `createActivityItem` from the activity-item component source, template
whitespace included. -/
def createActivityItem (props : Props) : String :=
  let classes := getActivityItemClasses props
  let attributes :=
    if truthy (getProp props "data-testid") then
      "data-testid=\"" ++ jsToString (getProp props "data-testid") ++ "\""
    else ""
  let statusColor := activityStatusColor (getProp props "statusColor")
  let descriptionHtml :=
    if truthy (getProp props "description") then
      "<p class=\"text-xs text-gray-500 mt-1\">" ++
        jsToString (getProp props "description") ++ "</p>"
    else ""
  "\n    <div class=\"" ++ classes ++ "\" " ++ attributes ++
    ">\n      <div class=\"flex items-center gap-4\">\n        <div class=\"relative\">\n          <div class=\"w-3 h-3 " ++
    jsToString statusColor ++
    " rounded-full status-dot\"></div>\n        </div>\n        <div>\n          <p class=\"text-sm font-medium text-gray-900\">" ++
    jsToString (getProp props "title") ++
    "</p>\n          " ++ descriptionHtml ++
    "\n        </div>\n      </div>\n      <span class=\"text-xs text-gray-500 font-medium\">" ++
    jsToString (getProp props "timeAgo") ++
    "</span>\n    </div>\n  "

/-!
## User-info fields factory (`src/ui/components/user-info-fields.ts`)
-/

/-- JavaScript member access `v.k`: a TypeError on `null`/`undefined`,
the field value (or `undefined`) on an object, `undefined` on other
primitives. -/
def jsMember (v : JsVal) (k : String) : Except String JsVal :=
  match v with
  | .null => .error ("TypeError: cannot read properties of null, reading " ++ k)
  | .undefined =>
    .error ("TypeError: cannot read properties of undefined, reading " ++ k)
  | .obj fields =>
    .ok (match lookupStr fields k with
         | some s => .str s
         | none => .undefined)
  | _ => .ok .undefined

/-- `createUserInfoFields`: dereferences `props.user.name`,
`props.user.email` and `props.user.id`, so a missing/null `user` record
raises a TypeError (modelled as `Except.error`). -/
def createUserInfoFields (props : Props) : Except String String :=
  let attributes :=
    if truthy (getProp props "data-testid") then
      "data-testid=\"" ++ jsToString (getProp props "data-testid") ++ "\""
    else ""
  let user := getProp props "user"
  match jsMember user "name", jsMember user "email", jsMember user "id" with
  | .error e, _, _ => .error e
  | .ok _, .error e, _ => .error e
  | .ok _, .ok _, .error e => .error e
  | .ok name, .ok email, .ok id =>
    .ok ("\n    <div class=\"space-y-4\" " ++ attributes ++
    ">\n      <div class=\"p-4 bg-gray-50 rounded-lg border border-gray-100\">\n        <label class=\"text-xs font-semibold text-gray-500 uppercase tracking-wide\">Full Name</label>\n        <p class=\"text-gray-900 mt-1 font-medium\">" ++
    jsToString name ++
    "</p>\n      </div>\n      <div class=\"p-4 bg-gray-50 rounded-lg border border-gray-100\">\n        <label class=\"text-xs font-semibold text-gray-500 uppercase tracking-wide\">Email Address</label>\n        <p class=\"text-gray-900 mt-1 font-medium\">" ++
    jsToString email ++
    "</p>\n      </div>\n      <div class=\"p-4 bg-gray-50 rounded-lg border border-gray-100\">\n        <label class=\"text-xs font-semibold text-gray-500 uppercase tracking-wide\">User ID</label>\n        <p class=\"text-gray-900 mt-1 font-mono text-sm\">" ++
    jsToString id ++
    "</p>\n      </div>\n    </div>\n  ")

/-!
## KPI lookup tables and attributes (user-info-fields.ts, KPI part)
-/

/-- The `colorMap` of `getIconColorClasses`. -/
def iconColorMap : List (String × String) :=
  [("blue", "bg-blue-100 text-blue-600"),
   ("purple", "bg-purple-100 text-purple-600"),
   ("cyan", "bg-cyan-100 text-cyan-600"),
   ("green", "bg-green-100 text-green-600"),
   ("yellow", "bg-yellow-100 text-yellow-600"),
   ("red", "bg-red-100 text-red-600"),
   ("gray", "bg-gray-100 text-gray-600")]

/-- `getIconColorClasses`: `colorMap[color || 'blue'] || colorMap.blue`. -/
def getIconColorClasses (color : JsVal) : String :=
  let key := if truthy color then jsToString color else "blue"
  match lookupStr iconColorMap key with
  | some s => s
  | none => "bg-blue-100 text-blue-600"

/-- The `trendMap` of `getTrendColorClasses`. -/
def trendMap : List (String × String) :=
  [("up", "text-green-600"), ("down", "text-red-600"),
   ("neutral", "text-gray-600")]

/-- `getTrendColorClasses`: `trendMap[trend || 'neutral'] ||
trendMap.neutral`. -/
def getTrendColorClasses (trend : JsVal) : String :=
  let key := if truthy trend then jsToString trend else "neutral"
  match lookupStr trendMap key with
  | some s => s
  | none => "text-gray-600"

/-- `getKPIAttributes`: rest destructuring away all of the KPI's declared
props. -/
def getKPIAttributes (props : Props) : Props :=
  stripKeys props
    ["variant", "size", "className", "title", "value", "description",
     "iconPath", "iconColor", "change", "trend", "changeDescription"]

/-!
## Helper registry (Handlebars helper wrappers, `handlebars-helpers.ts`)
-/

/-- Modelled from the spec: the button component factory source is not
among the provided files (only its import and helper registration in the
registry are), so this follows the spec's factory contract — a pure
function of the props returning a markup string composed from the
resolved classes, the serialized passthrough attributes, and the
`children` content. -/
def createButton (props : Props) : String :=
  let classes := cn [.str "button", getProp props "className"]
  let attributes := stripKeys props ["variant", "size", "className", "children"]
  let attributesStringified := createAttributesStringified attributes
  let content := childrenContent (getProp props "children")
  "<button class=\"" ++ classes ++ "\" " ++ attributesStringified ++ ">" ++
    content ++ "</button>"

/-- A Handlebars helper invocation context: the named-argument hash and,
in block form, the block-content renderer `options.fn` (a function of the
current data context). -/
structure HelperOptions where
  hash : Props
  fn : Option (JsVal → String)

/-- The wrapper shape shared by the block-capable helpers in
`registerHandlebarsHelpers`:

```ts
const props = (options?.hash as Props) || {};
if (options.fn) { props.children = options.fn(this); }
return new Handlebars.SafeString(createX(props));
```

(The SafeString wrapper leaves the markup text unchanged.) -/
def helperBlockInvoke (create : Props → String) (opts : HelperOptions)
    (ctx : JsVal) : String :=
  let props :=
    match opts.fn with
    | some f => setProp opts.hash "children" (.str (f ctx))
    | none => opts.hash
  create props

/-- The block-capable helpers of `registerHandlebarsHelpers`: button, card,
and the six card sub-regions. -/
def blockHelpers : List (Props → String) :=
  [createButton, createCard, createCardHeader, createCardTitle,
   createCardDescription, createCardAction, createCardContent,
   createCardFooter]

/-!
## General lemmas about the embedded operations
-/

theorem mem_of_mem_keptBefore {c : String} :
    ∀ {xs ys : List String}, c ∈ keptBefore xs ys → c ∈ xs := by
  intro xs
  induction xs with
  | nil => intro ys h; simp [keptBefore] at h
  | cons a xs ih =>
    intro ys h
    simp only [keptBefore] at h
    by_cases hc : ((xs ++ ys).any fun d => conflictsWith a d) = true
    · rw [if_pos hc] at h
      exact List.mem_cons_of_mem a (ih h)
    · rw [if_neg hc] at h
      rcases List.mem_cons.mp h with rfl | h
      · exact List.mem_cons_self _ _
      · exact List.mem_cons_of_mem a (ih h)

theorem twMergeList_append (xs ys : List String) :
    twMergeList (xs ++ ys) = keptBefore xs ys ++ twMergeList ys := by
  induction xs with
  | nil => simp [keptBefore]
  | cons a xs ih =>
    simp only [List.cons_append, twMergeList, keptBefore, List.append_eq]
    split_ifs with hc
    · exact ih
    · rw [ih, List.cons_append]

theorem not_mem_keptBefore {c : String} :
    ∀ {xs ys : List String}, c ∈ xs →
      (∃ d, d ∈ ys ∧ conflictsWith c d = true) → c ∉ keptBefore xs ys := by
  intro xs
  induction xs with
  | nil => intro ys h; simp at h
  | cons a xs ih =>
    intro ys hc hex hmem
    simp only [keptBefore] at hmem
    by_cases hcond : ((xs ++ ys).any fun d => conflictsWith a d) = true
    · rw [if_pos hcond] at hmem
      exact ih (mem_of_mem_keptBefore hmem) hex hmem
    · rw [if_neg hcond] at hmem
      rcases List.mem_cons.mp hmem with rfl | hmem2
      · rcases hex with ⟨d, hd, hcd⟩
        exact hcond (List.any_eq_true.mpr ⟨d, List.mem_append_right xs hd, hcd⟩)
      · exact ih (mem_of_mem_keptBefore hmem2) hex hmem2

theorem lookupStr_eq_none {α : Type} {table : List (String × α)} {key : String}
    (h : ∀ kv ∈ table, kv.1 ≠ key) : lookupStr table key = none := by
  induction table with
  | nil => rfl
  | cons a rest ih =>
    simp only [lookupStr]
    rw [if_neg (h a (by simp))]
    exact ih fun kv hkv => h kv (by simp [hkv])

theorem setProp_setProp (m : Props) (k : String) (w v : JsVal) :
    setProp (setProp m k w) k v = setProp m k v := by
  have hpf : ((fun kv : String × JsVal => decide (kv.1 = k)) ∘
      fun kv : String × JsVal => if kv.1 = k then (k, w) else kv) =
      fun kv : String × JsVal => decide (kv.1 = k) := by
    funext kv
    by_cases hk : kv.1 = k <;> simp [hk]
  have hgf : ((fun kv : String × JsVal => if kv.1 = k then (k, v) else kv) ∘
      fun kv : String × JsVal => if kv.1 = k then (k, w) else kv) =
      fun kv : String × JsVal => if kv.1 = k then (k, v) else kv := by
    funext kv
    by_cases hk : kv.1 = k <;> simp [hk]
  simp only [setProp]
  by_cases h : (m.any fun kv => decide (kv.1 = k)) = true
  · rw [if_pos h]
    have hany : ((m.map fun kv => if kv.1 = k then (k, w) else kv).any
        fun kv => decide (kv.1 = k)) = true := by
      rw [List.any_map, hpf]
      exact h
    rw [if_pos hany, if_pos h, List.map_map, hgf]
  · rw [if_neg h]
    have hany : ((m ++ [(k, w)]).any fun kv => decide (kv.1 = k)) = true := by
      simp [List.any_append]
    rw [if_pos hany, if_neg h, List.map_append]
    have hnone : ∀ kv ∈ m, kv.1 ≠ k := by
      intro kv hkv hk
      exact h (List.any_eq_true.mpr ⟨kv, hkv, by simp [hk]⟩)
    have hid : (m.map fun kv => if kv.1 = k then (k, v) else kv) = m := by
      conv_rhs => rw [← List.map_id m]
      exact List.map_congr_left fun kv hkv => by simp [hnone kv hkv]
    rw [hid]
    simp

theorem mem_keys_setProp {x k : String} {v : JsVal} {m : Props}
    (h : x ∈ (setProp m k v).map Prod.fst) : x = k ∨ x ∈ m.map Prod.fst := by
  simp only [setProp] at h
  split at h
  · rw [List.map_map] at h
    rcases List.mem_map.mp h with ⟨kv, hkv, hx⟩
    by_cases hk : kv.1 = k
    · left
      rw [← hx]
      simp [hk]
    · right
      rw [← hx]
      simp only [Function.comp_apply, if_neg hk]
      exact List.mem_map.mpr ⟨kv, hkv, rfl⟩
  · rw [List.map_append] at h
    rcases List.mem_append.mp h with h2 | h2
    · exact Or.inr h2
    · left
      simpa using h2

theorem not_mem_keys_stripKeys {k : String} {removed : List String}
    (h : k ∈ removed) (props : Props) :
    k ∉ (stripKeys props removed).map Prod.fst := by
  intro hmem
  simp only [stripKeys, List.mem_map] at hmem
  rcases hmem with ⟨kv, hkv, rfl⟩
  have hf := (List.mem_filter.mp hkv).2
  simp only [decide_eq_true_eq] at hf
  exact hf (List.elem_eq_true_of_mem h)

theorem mem_keys_condSpread {x k : String} {v : JsVal} {m : Props} {c : Bool}
    (h : x ∈ ((if c = true then jsSpread m k v else m)).map Prod.fst) :
    x = k ∨ x ∈ m.map Prod.fst := by
  split at h
  · exact mem_keys_setProp h
  · exact Or.inr h

theorem mem_keys_getInputAttributes {x : String} {props : Props}
    (h : x ∈ (getInputAttributes props).map Prod.fst) :
    x ∈ (["oninput", "onchange", "onblur", "onfocus", "disabled", "readonly",
      "required", "autofocus"] : List String) ∨
      x ∈ (stripKeys props ["variant", "size", "state", "className", "onInput",
        "onChange", "onBlur", "onFocus"]).map Prod.fst := by
  simp only [getInputAttributes] at h
  rcases mem_keys_condSpread h with rfl | h
  · left; simp
  rcases mem_keys_condSpread h with rfl | h
  · left; simp
  rcases mem_keys_condSpread h with rfl | h
  · left; simp
  rcases mem_keys_condSpread h with rfl | h
  · left; simp
  rcases mem_keys_condSpread h with rfl | h
  · left; simp
  rcases mem_keys_condSpread h with rfl | h
  · left; simp
  rcases mem_keys_condSpread h with rfl | h
  · left; simp
  rcases mem_keys_condSpread h with rfl | h
  · left; simp
  exact Or.inr h

theorem attrEntryStrings_append (xs ys : Props) :
    attrEntryStrings (xs ++ ys) = attrEntryStrings xs ++ attrEntryStrings ys := by
  simp [attrEntryStrings, List.filter_append, List.map_append]

/-!
## Claim theorems
-/

/-- Claim C1, counterexample: selecting the unknown avatar variant value
`"bogus"` does not yield the same class string as selecting the declared
default — the `bg-muted` default fragment is absent, because the variant
table lookup for an unknown key contributes no fragment at all. -/
theorem claim_C1_counterexample :
    avatarVariants [("variant", JsVal.str "bogus")] ≠
      avatarVariants [("variant", JsVal.str "default")] := by decide

/-- Claim C1 (amended): resolution never raises; an absent axis value falls
back to the axis's declared default (absent props resolve exactly as the
explicit defaults do), but an unknown non-empty supplied value makes the
axis contribute no fragment at all — the other axes still resolve to their
defaults. -/
theorem claim_C1_amended :
    (avatarVariants [] =
      avatarVariants [("variant", .str "default"), ("size", .str "md")]) ∧
    (inputVariants [] =
      inputVariants
        [("variant", .str "default"), ("size", .str "md"),
         ("state", .str "normal")]) ∧
    (∀ s : String, s ≠ "" →
      s ∉ (["default", "primary", "secondary", "accent", "destructive"] :
        List String) →
      avatarVariants [("variant", JsVal.str s)] =
        "relative flex shrink-0 overflow-hidden rounded-full size-10 text-sm") ∧
    (∀ s : String, s ≠ "" → s ∉ (["lg", "md", "sm"] : List String) →
      inputVariants [("size", JsVal.str s)] = inputBase) := by
  refine ⟨by decide, by decide, ?_, ?_⟩
  · intro s hs hmem
    simp only [List.mem_cons, List.not_mem_nil, or_false, not_or] at hmem
    obtain ⟨h1, h2, h3, h4, h5⟩ := hmem
    simp [avatarVariants, cvaApply, cvaResolveAxis, getProp, lookupStr,
      falsyToString, truthy, jsToString, clsxJoin, clsxArg, hs, Ne.symm h1,
      Ne.symm h2, Ne.symm h3, Ne.symm h4, Ne.symm h5]
    decide
  · intro s hs hmem
    simp only [List.mem_cons, List.not_mem_nil, or_false, not_or] at hmem
    obtain ⟨h1, h2, h3⟩ := hmem
    simp [inputVariants, cvaApply, cvaResolveAxis, getProp, lookupStr,
      falsyToString, truthy, jsToString, clsxJoin, clsxArg, hs, Ne.symm h1,
      Ne.symm h2, Ne.symm h3, inputBase]
    decide

/-- Claim C1, witness: the amended theorem applied to the concrete unknown
value `"bogus"`. -/
theorem claim_C1_witness :
    avatarVariants [("variant", JsVal.str "bogus")] =
      "relative flex shrink-0 overflow-hidden rounded-full size-10 text-sm" :=
  claim_C1_amended.2.2.1 "bogus" (by decide) (by decide)

/-- Claim C2 (confirmed): the attribute serializer omits `undefined`,
`null`, and `false`-boolean entries wherever they occur, joins the
remaining renderings with single spaces in input order (`true` booleans as
bare names, other values as `name="value"` with string coercion), returns
the documented result on the spec's example, and returns the empty string
on empty input. -/
theorem claim_C2 :
    (∀ (xs ys : Props) (k : String),
      createAttributesStringified (xs ++ (k, JsVal.undefined) :: ys) =
        createAttributesStringified (xs ++ ys)) ∧
    (∀ (xs ys : Props) (k : String),
      createAttributesStringified (xs ++ (k, JsVal.null) :: ys) =
        createAttributesStringified (xs ++ ys)) ∧
    (∀ (xs ys : Props) (k : String),
      createAttributesStringified (xs ++ (k, JsVal.bool false) :: ys) =
        createAttributesStringified (xs ++ ys)) ∧
    createAttributesStringified
      [("disabled", .bool true), ("hidden", .bool false), ("id", .str "x")] =
      "disabled id=\"x\"" ∧
    createAttributesStringified [("tabindex", .num 3)] = "tabindex=\"3\"" ∧
    createAttributesStringified [] = "" := by
  refine ⟨?_, ?_, ?_, by decide, by decide, by decide⟩ <;>
    · intro xs ys k
      simp [createAttributesStringified, attrEntryStrings_append,
        attrEntryStrings]

/-- Claim C3 (confirmed): the merged class list decomposes as the
surviving earlier classes followed by the merge of the later ones (so the
caller override always sits after the variant fragments), an earlier class
conflicting with a later one is dropped (the override wins), and on the
cited example — the KPI default classes, whose size fragment is `p-6`,
overridden with `p-2` — the resolved string keeps `p-2` and drops `p-6`. -/
theorem claim_C3 :
    (∀ xs ys : List String,
      twMergeList (xs ++ ys) = keptBefore xs ys ++ twMergeList ys) ∧
    (∀ (c : String) (xs ys : List String), c ∈ xs →
      (∃ d, d ∈ ys ∧ conflictsWith c d = true) → c ∉ keptBefore xs ys) ∧
    classWords (cn [.str (kpiVariants []), .str "p-2"]) =
      ["rounded-lg", "border", "bg-card", "text-card-foreground", "shadow-sm",
       "transition-all", "hover:shadow-md", "border-gray-200", "p-2"] ∧
    "p-6" ∈ classWords (kpiVariants []) :=
  ⟨twMergeList_append, fun _ _ _ hc hex => not_mem_keptBefore hc hex,
   by decide, by decide⟩

/-- Claim C3, witness: the decomposition and drop facts applied to the
concrete conflicting pair `p-6` (earlier) / `p-2` (later). -/
theorem claim_C3_witness :
    twMergeList (["p-6"] ++ ["p-2"]) =
      keptBefore ["p-6"] ["p-2"] ++ twMergeList ["p-2"] ∧
    "p-6" ∉ keptBefore ["p-6"] ["p-2"] :=
  ⟨claim_C3.1 ["p-6"] ["p-2"],
   claim_C3.2.1 "p-6" ["p-6"] ["p-2"] (by decide)
     ⟨"p-2", by decide, by decide⟩⟩

/-- Claim C4, counterexample: `createUserInfoFields` called without the
required `user` record does not return a markup string — it raises a
TypeError while dereferencing `props.user.name`. -/
theorem claim_C4_counterexample :
    createUserInfoFields [] =
      Except.error "TypeError: cannot read properties of undefined, reading name" := by
  rfl

/-- Claim C4 (amended): factories never raise for malformed props except
for the user-info block's required `user` record — whenever `user` is
neither `null` nor `undefined` the user-info factory returns a markup
string (every other factory is total by construction) — and an absent
optional structural prop omits its markup fragment entirely: the activity
item rendered without a description contains no description `<p>` element
at all. -/
theorem claim_C4_amended :
    (∀ props : Props, getProp props "user" ≠ JsVal.null →
      getProp props "user" ≠ JsVal.undefined →
      (createUserInfoFields props).isOk = true) ∧
    createActivityItem [("title", .str "Deploy"), ("timeAgo", .str "2 hours ago")] =
      "\n    <div class=\"flex items-center justify-between py-4 hover:bg-gray-50 px-4 rounded-lg transition-colors border-b border-gray-100\" >\n      <div class=\"flex items-center gap-4\">\n        <div class=\"relative\">\n          <div class=\"w-3 h-3 bg-blue-600 rounded-full status-dot\"></div>\n        </div>\n        <div>\n          <p class=\"text-sm font-medium text-gray-900\">Deploy</p>\n          \n        </div>\n      </div>\n      <span class=\"text-xs text-gray-500 font-medium\">2 hours ago</span>\n    </div>\n  " ∧
    ¬ ("text-xs text-gray-500 mt-1".data <:+:
        (createActivityItem
          [("title", .str "Deploy"), ("timeAgo", .str "2 hours ago")]).data) := by
  refine ⟨?_, by decide, by decide⟩
  intro props h1 h2
  cases hv : getProp props "user" with
  | null => exact absurd hv h1
  | undefined => exact absurd hv h2
  | str s =>
    simp [createUserInfoFields, hv, jsMember, Except.isOk, Except.toBool]
  | num n =>
    simp [createUserInfoFields, hv, jsMember, Except.isOk, Except.toBool]
  | bool b =>
    simp [createUserInfoFields, hv, jsMember, Except.isOk, Except.toBool]
  | obj fields =>
    simp [createUserInfoFields, hv, jsMember, Except.isOk, Except.toBool]

/-- Claim C4, witness: the amended theorem applied to a concrete props
object carrying a user record. -/
theorem claim_C4_witness :
    (createUserInfoFields
      [("user", JsVal.obj
        [("name", "Ada"), ("email", "ada@example.com"), ("id", "u1")])]).isOk =
      true :=
  claim_C4_amended.1
    [("user", JsVal.obj
      [("name", "Ada"), ("email", "ada@example.com"), ("id", "u1")])]
    (by decide) (by decide)

/-- Claim C5 (confirmed): for every block-capable helper — button, card,
and each card sub-region — a block invocation whose block renders to `s`
produces exactly the markup of the inline call with `children = s`, and
the block-rendered value overrides any `children` named argument in the
hash. -/
theorem claim_C5 :
    ∀ create ∈ blockHelpers, ∀ (hash : Props) (f : JsVal → String)
      (ctx : JsVal),
      helperBlockInvoke create ⟨hash, some f⟩ ctx =
        create (setProp hash "children" (.str (f ctx))) ∧
      helperBlockInvoke create ⟨hash, some f⟩ ctx =
        helperBlockInvoke create
          ⟨setProp hash "children" (.str (f ctx)), none⟩ ctx ∧
      ∀ w : JsVal,
        helperBlockInvoke create ⟨setProp hash "children" w, some f⟩ ctx =
          helperBlockInvoke create ⟨hash, some f⟩ ctx := by
  intro create _ hash f ctx
  refine ⟨rfl, rfl, fun w => ?_⟩
  simp only [helperBlockInvoke, setProp_setProp]

/-- Claim C5, witness: the equivalence applied to the card helper with
block content `"Hello"` and an empty hash. -/
theorem claim_C5_witness :
    helperBlockInvoke createCard ⟨[], some fun _ => "Hello"⟩ JsVal.null =
      createCard (setProp [] "children" (.str "Hello")) :=
  (claim_C5 createCard (by simp [blockHelpers]) [] (fun _ => "Hello")
    JsVal.null).1

/-- Claim C6 (confirmed): initials are the uppercased first letter of a
single-token name and the uppercased first letters of the first and last
tokens otherwise — `"Ada Lovelace"` gives `"AL"`, `"Prince"` gives `"P"` —
and with both `name` and `src` absent the avatar still emits the wrapper
div with an empty initials string as its content. -/
theorem claim_C6 :
    getInitials "Ada Lovelace" = "AL" ∧ getInitials "Prince" = "P" ∧
    createAvatar [] =
      "<div data-slot=\"avatar\" class=\"relative flex shrink-0 overflow-hidden rounded-full bg-muted size-10 text-sm flex items-center justify-center font-semibold\" ></div>" := by
  refine ⟨by decide, by decide, by decide⟩

/-- Claim C7, counterexample: the activity item's status-color table does
not map the unrecognized value `"magenta"` to the blue default — the
selected fragment is the JavaScript value `undefined`, which interpolates
as the text `undefined` in the dot's class attribute. -/
theorem claim_C7_counterexample :
    activityStatusColor (.str "magenta") ≠ JsVal.str "bg-blue-600" ∧
    jsToString (activityStatusColor (.str "magenta")) = "undefined" := by
  decide

/-- Claim C7 (amended): KPI's iconColor and trend tables map every absent
or unrecognized value to their declared defaults (blue and neutral); the
activity item's statusColor table maps only absent (falsy) values to blue
— a truthy unrecognized value selects the JavaScript value `undefined`
instead of the default fragment. -/
theorem claim_C7_amended :
    (∀ v : JsVal, truthy v = false →
      activityStatusColor v = .str "bg-blue-600") ∧
    (∀ v : JsVal, truthy v = true →
      lookupStr statusColorClasses (jsToString v) = none →
      activityStatusColor v = JsVal.undefined) ∧
    (∀ v : JsVal, truthy v = false ∨ lookupStr iconColorMap (jsToString v) = none →
      getIconColorClasses v = "bg-blue-100 text-blue-600") ∧
    (∀ v : JsVal, truthy v = false ∨ lookupStr trendMap (jsToString v) = none →
      getTrendColorClasses v = "text-gray-600") := by
  refine ⟨?_, ?_, ?_, ?_⟩
  · intro v hv
    simp [activityStatusColor, hv]
  · intro v hv hlk
    simp [activityStatusColor, hv, hlk]
  · intro v hv
    by_cases ht : truthy v = true
    · rcases hv with hv | hv
      · rw [ht] at hv; cases hv
      · simp [getIconColorClasses, ht, hv]
    · simp [getIconColorClasses, ht, iconColorMap, lookupStr]
  · intro v hv
    by_cases ht : truthy v = true
    · rcases hv with hv | hv
      · rw [ht] at hv; cases hv
      · simp [getTrendColorClasses, ht, hv]
    · simp [getTrendColorClasses, ht, trendMap, lookupStr]

/-- Claim C7, witness: the amended theorem applied to concrete inputs —
an unrecognized icon color, an absent trend, an absent status color, and
the unrecognized status color selecting `undefined`. -/
theorem claim_C7_witness :
    getIconColorClasses (.str "chartreuse") = "bg-blue-100 text-blue-600" ∧
    getTrendColorClasses JsVal.undefined = "text-gray-600" ∧
    activityStatusColor JsVal.undefined = .str "bg-blue-600" ∧
    activityStatusColor (.str "teal") = JsVal.undefined :=
  ⟨claim_C7_amended.2.2.1 _ (Or.inr (by decide)),
   claim_C7_amended.2.2.2 _ (Or.inl (by decide)),
   claim_C7_amended.1 _ (by decide),
   claim_C7_amended.2.1 _ (by decide) (by decide)⟩

/-- Claim C8 (confirmed): the card and its sub-region factories embed the
children string verbatim as a contiguous substring between a fixed prefix
and `</div>`; consequently rendering header and content independently and
concatenating gives exactly the inner bytes that the enclosing card wraps
when fed that concatenation as `children`. -/
theorem claim_C8 (s hdr cnt : String) :
    createCard [("children", JsVal.str s)] =
      "<div data-slot=\"card\" class=\"bg-card text-card-foreground flex flex-col gap-6 rounded-xl border shadow-sm border-gray-200 py-6\" >" ++
        s ++ "</div>" ∧
    createCardHeader [("children", JsVal.str hdr)] =
      "<div data-slot=\"card-header\" class=\"@container/card-header grid auto-rows-min grid-rows-[auto_auto] items-start gap-2 px-6 has-data-[slot=card-action]:grid-cols-[1fr_auto] [.border-b]:pb-6\" >" ++
        hdr ++ "</div>" ∧
    createCardContent [("children", JsVal.str cnt)] =
      "<div data-slot=\"card-content\" class=\"px-6\" >" ++ cnt ++ "</div>" ∧
    createCard
      [("children", JsVal.str
        (createCardHeader [("children", JsVal.str hdr)] ++
          createCardContent [("children", JsVal.str cnt)]))] =
      "<div data-slot=\"card\" class=\"bg-card text-card-foreground flex flex-col gap-6 rounded-xl border shadow-sm border-gray-200 py-6\" >" ++
        (createCardHeader [("children", JsVal.str hdr)] ++
          createCardContent [("children", JsVal.str cnt)]) ++ "</div>" :=
  ⟨rfl, rfl, rfl, rfl⟩

/-- Claim C9, counterexample: avatar props carrying the keys `state` and
`children` — which the avatar factory does not declare and therefore does
not strip — flow through into the attribute set handed to the serializer. -/
theorem claim_C9_counterexample :
    (getAvatarAttributes
      [("state", JsVal.str "error"), ("children", JsVal.str "x")]).map
      Prod.fst = ["state", "children"] := by decide

/-- Claim C9 (amended): each factory's attribute set excludes exactly that
factory's own declared prop keys — avatar strips variant, size, className,
name, src, alt; KPI strips its eleven declared keys; card strips variant,
padding, className, children; input strips variant, size, state, className
and the four camel-case handler props (its spreads add only lower-case
handler names and bare flag attributes).  Keys not declared by the
particular factory pass through. -/
theorem claim_C9_amended :
    (∀ (props : Props) (k : String),
      k ∈ (["variant", "size", "className", "name", "src", "alt"] :
        List String) →
      k ∉ (getAvatarAttributes props).map Prod.fst) ∧
    (∀ (props : Props) (k : String),
      k ∈ (["variant", "size", "className", "title", "value", "description",
        "iconPath", "iconColor", "change", "trend", "changeDescription"] :
        List String) →
      k ∉ (getKPIAttributes props).map Prod.fst) ∧
    (∀ (props : Props) (k : String),
      k ∈ (["variant", "padding", "className", "children"] : List String) →
      k ∉ (getCardAttributes props).map Prod.fst) ∧
    (∀ (props : Props) (k : String),
      k ∈ (["variant", "size", "state", "className", "onInput", "onChange",
        "onBlur", "onFocus"] : List String) →
      k ∉ (getInputAttributes props).map Prod.fst) := by
  refine ⟨?_, ?_, ?_, ?_⟩
  · intro props k hk
    exact not_mem_keys_stripKeys hk props
  · intro props k hk
    exact not_mem_keys_stripKeys hk props
  · intro props k hk
    exact not_mem_keys_stripKeys hk props
  · intro props k hk hmem
    rcases mem_keys_getInputAttributes hmem with hadd | hrest
    · fin_cases hk <;> simp at hadd
    · exact not_mem_keys_stripKeys hk props hrest

/-- Claim C9, witness: the amended theorem applied to concrete avatar
props — a supplied `variant` key never reaches the attribute set. -/
theorem claim_C9_witness :
    "variant" ∉
      (getAvatarAttributes
        [("variant", JsVal.str "primary"), ("data-x", JsVal.str "1")]).map
        Prod.fst :=
  claim_C9_amended.1 [("variant", JsVal.str "primary"), ("data-x", JsVal.str "1")]
    "variant" (by decide)

/-- Claim C10 (confirmed): with an empty passthrough attribute set the
serialized attribute string is empty, yet every factory interpolates it
after a fixed space, so the emitted tag keeps a literal space after the
class attribute's closing quote — card and avatar before `>`, input before
`/>`. -/
theorem claim_C10 :
    createCard [] =
      "<div data-slot=\"card\" class=\"bg-card text-card-foreground flex flex-col gap-6 rounded-xl border shadow-sm border-gray-200 py-6\" ></div>" ∧
    createInput [] =
      "<input class=\"w-full appearance-none bg-white text-foreground placeholder:text-muted-foreground border border-gray-300 rounded-md ring-offset-white transition-colors focus-visible:outline-none focus-visible:ring-2 focus-visible:ring-primary focus-visible:ring-offset-2 disabled:cursor-not-allowed disabled:opacity-50 h-9 px-3 text-sm\"  />" ∧
    createAvatar [("name", JsVal.str "Bo")] =
      "<div data-slot=\"avatar\" class=\"relative flex shrink-0 overflow-hidden rounded-full bg-muted size-10 text-sm flex items-center justify-center font-semibold\" >B</div>" := by
  refine ⟨by decide, by decide, by decide⟩

end ReactSSR
